import Mathlib

/-!
Shallow embedding of the CSV import / AI-extraction ingestion core of the
fincontrol personal-finance repository.

Sources embedded:
* `src/lib/csv.ts` — sanitizer, currency/date normalizers, CSV tokenizer,
  transaction validator, `MAX_IMPORT_BATCH_SIZE`;
* `src/components/settings/ImportCSVDialog.tsx` — drop handling and the
  batched import mutation;
* `supabase/functions/process-bank-statement/index.ts` — the document
  extraction ingestion pipeline, modelled as a pure function from an
  environment of external-call results to a response plus the ordered list
  of database writes.

Modelling conventions: JavaScript strings are Lean `String`s (JS counts
UTF-16 code units where Lean counts code points; all inputs of interest are
in the BMP, where the two agree).  JavaScript numbers are modelled as exact
rationals, with `JsNum` adding the NaN/±Infinity points where the code can
produce them; rounding of decimal literals to IEEE doubles is not modelled.
-/

/-- JavaScript whitespace (the `\s` regex class and `String.prototype.trim`
use the same set: WhiteSpace ∪ LineTerminator). -/
def jsWhitespace (c : Char) : Bool :=
  c == ' ' || c == '\t' || c == '\n' || c == '\r' ||
  c.val == 0x0B || c.val == 0x0C || c.val == 0xA0 || c.val == 0x1680 ||
  (0x2000 ≤ c.val && c.val ≤ 0x200A) ||
  c.val == 0x2028 || c.val == 0x2029 || c.val == 0x202F ||
  c.val == 0x205F || c.val == 0x3000 || c.val == 0xFEFF

/-- `String.prototype.trim`. -/
def jsTrim (s : String) : String :=
  String.mk (((s.toList.dropWhile jsWhitespace).reverse.dropWhile jsWhitespace).reverse)

/-- The control characters removed by the sanitizer's
`/[\x00-\x08\x0B\x0C\x0E-\x1F\x7F]/g` class. -/
def isCtlChar (c : Char) : Bool :=
  c.val ≤ 0x08 || c.val == 0x0B || c.val == 0x0C ||
  (0x0E ≤ c.val && c.val ≤ 0x1F) || c.val == 0x7F

/-- The `\w` regex class: `[A-Za-z0-9_]`. -/
def isWordChar (c : Char) : Bool :=
  ('a' ≤ c && c ≤ 'z') || ('A' ≤ c && c ≤ 'Z') || ('0' ≤ c && c ≤ '9') || c == '_'

/-- Case-insensitive match of an (already lower-case) pattern against the
head of a character list. -/
def startsWithCI : List Char → List Char → Bool
  | [], _ => true
  | _ :: _, [] => false
  | p :: ps, c :: cs => p == c.toLower && startsWithCI ps cs

/-- The literal pattern of `/javascript:/gi`. -/
def jsProtoPat : List Char := "javascript:".toList

/-- Fuel-driven worker for `stripJsProto`; each step consumes at least one
character, so fuel equal to the list length always suffices. -/
def stripJsProtoFuel : Nat → List Char → List Char
  | 0, _ => []
  | _, [] => []
  | fuel + 1, c :: cs =>
    if startsWithCI jsProtoPat (c :: cs) then stripJsProtoFuel fuel (cs.drop 10)
    else c :: stripJsProtoFuel fuel cs

/-- `text.replace(/javascript:/gi, '')`: one left-to-right scan over the
original string, removing non-overlapping matches (the result is not
rescanned, matching JS global-replace semantics). -/
def stripJsProto (l : List Char) : List Char :=
  stripJsProtoFuel l.length l

/-- Length of the `/on\w+=/i` match anchored at the head of the list, if
any: `o`/`O`, `n`/`N`, a nonempty run of word characters, then `=` (since
`=` is not a word character, greedy `\w+` is forced to the maximal run). -/
def onMatchLen : List Char → Option Nat
  | c1 :: c2 :: rest =>
    if c1.toLower == 'o' && c2.toLower == 'n' then
      let run := rest.takeWhile isWordChar
      if run.isEmpty then none
      else
        match rest.drop run.length with
        | '=' :: _ => some (2 + run.length + 1)
        | _ => none
    else none
  | _ => none

/-- Fuel-driven worker for `stripOnHandlers`. -/
def stripOnHandlersFuel : Nat → List Char → List Char
  | 0, _ => []
  | _, [] => []
  | fuel + 1, c :: cs =>
    match onMatchLen (c :: cs) with
    | some n => stripOnHandlersFuel fuel (cs.drop (n - 1))
    | none => c :: stripOnHandlersFuel fuel cs

/-- `text.replace(/on\w+=/gi, '')`, same single-scan semantics. -/
def stripOnHandlers (l : List Char) : List Char :=
  stripOnHandlersFuel l.length l

/-- `sanitizeText` from `src/lib/csv.ts`: remove `<`/`>`, the
`javascript:` scheme, `on<word>=` event-handler patterns and C0 control
characters, then trim.  An empty input is returned as-is (the `!text`
guard). -/
def sanitizeText (text : String) : String :=
  if text.toList.isEmpty then text
  else
    let l0 := text.toList.filter (fun c => !(c == '<' || c == '>'))
    let l1 := stripJsProto l0
    let l2 := stripOnHandlers l1
    let l3 := l2.filter (fun c => !isCtlChar c)
    jsTrim (String.mk l3)

/-- A JavaScript number as far as this code can distinguish values:
NaN, ±Infinity, or an exact (rational) finite value. -/
inductive JsNum where
  | nan
  | inf
  | neginf
  | num (q : ℚ)
deriving DecidableEq, Repr

def isDigitChar (c : Char) : Bool := '0' ≤ c && c ≤ '9'

def digitVal (c : Char) : Nat := c.toNat - '0'.toNat

def natOfDigits (l : List Char) : Nat :=
  l.foldl (fun a c => 10 * a + digitVal c) 0

/-- Parse an optional sign; returns (isNegative, rest). -/
def parseNumSign : List Char → (Bool × List Char)
  | '-' :: r => (true, r)
  | '+' :: r => (false, r)
  | l => (false, l)

/-- Value of an ExponentPart at the head of the list (0 when absent or
when no digits follow the `e`, in which case JS does not consume it). -/
def expValueAt (l : List Char) : ℤ :=
  match l with
  | c :: rest =>
    if c == 'e' || c == 'E' then
      let p := parseNumSign rest
      let ds := p.2.takeWhile isDigitChar
      if ds.isEmpty then 0
      else if p.1 then -(natOfDigits ds : ℤ) else (natOfDigits ds : ℤ)
    else 0
  | [] => 0

/-- ECMAScript `parseFloat`: skip whitespace, optional sign, then the
longest prefix that is `Infinity` or a decimal literal
(`D+[.D*]`, `.D+`, optional exponent); NaN when no such prefix exists.
Rounding to IEEE double (and overflow of huge finite literals to
Infinity) is not modelled: values are kept as exact rationals. -/
def parseFloatJS (s : String) : JsNum :=
  let l := s.toList.dropWhile jsWhitespace
  let sp := parseNumSign l
  let neg := sp.1
  let l1 := sp.2
  if l1.take 8 == "Infinity".toList then (if neg then .neginf else .inf)
  else
    let intDs := l1.takeWhile isDigitChar
    let r1 := l1.drop intDs.length
    let fracDs :=
      match r1 with
      | '.' :: r2 => r2.takeWhile isDigitChar
      | _ => []
    let afterFrac :=
      match r1 with
      | '.' :: r2 => r2.drop fracDs.length
      | _ => r1
    if intDs.isEmpty && fracDs.isEmpty then .nan
    else
      let e := expValueAt afterFrac
      let mant : ℚ := (natOfDigits intDs : ℚ) + (natOfDigits fracDs : ℚ) / ((10 : ℚ) ^ fracDs.length)
      .num ((if neg then -mant else mant) * (10 : ℚ) ^ e)

/-- Replace the first `,` by `.` (JS `String.replace` with a string
pattern replaces only the first occurrence). -/
def replaceFirstComma : List Char → List Char
  | [] => []
  | c :: cs => if c == ',' then '.' :: cs else c :: replaceFirstComma cs

/-- The cleanup chain of `parseCurrency`: strip `R`, `$` and whitespace
(`/[R$\s]/g`), remove every `.` (`/\./g`), turn the first `,` into `.`. -/
def cleanedCurrency (value : String) : String :=
  let a := value.toList.filter (fun c => !(c == 'R' || c == '$' || jsWhitespace c))
  let b := a.filter (fun c => !(c == '.'))
  String.mk (replaceFirstComma b)

/-- `parseCurrency` from `src/lib/csv.ts`: clean, `parseFloat`, and map a
falsy result (NaN, ±0) to 0 via `|| 0`.  Note ±Infinity is truthy and is
returned as-is. -/
def parseCurrency (value : String) : JsNum :=
  match parseFloatJS (cleanedCurrency value) with
  | .nan => .num 0
  | v => v

/-- `String.prototype.split` with a single-character separator (on the
underlying character list).  `[] ↦ [[]]`, matching JS `"".split(c) = [""]`. -/
def splitOnCharL (sep : Char) : List Char → List (List Char)
  | [] => [[]]
  | c :: cs =>
    match splitOnCharL sep cs with
    | [] => [[c]]
    | h :: t => if c == sep then [] :: h :: t else (c :: h) :: t

/-- `s.split(sep)` for a single-character string separator. -/
def jsSplitChar (sep : Char) (s : String) : List String :=
  (splitOnCharL sep s.toList).map String.mk

/-- `str.padStart(2, '0')`. -/
def padStart2 (s : String) : String :=
  if s.toList.length ≥ 2 then s
  else String.mk (List.replicate (2 - s.toList.length) '0' ++ s.toList)

/-- `parseDate` from `src/lib/csv.ts`.  The current date (the
`new Date().toISOString().split('T')[0]` fallback) is passed in as
`today`, making the function pure. -/
def parseDate (today : String) (dateStr : String) : String :=
  let parts := jsSplitChar '/' dateStr
  if parts.length == 3 then
    let day := parts[0]!
    let month := parts[1]!
    let year := parts[2]!
    year ++ "-" ++ padStart2 month ++ "-" ++ padStart2 day
  else if dateStr.toList.any (fun c => c == '-') then
    (jsSplitChar 'T' dateStr).headD ""
  else today

/-- The header-mapped raw CSV row (`TransactionCSV` in `src/lib/csv.ts`). -/
structure TransactionCSV where
  descricao : String
  valor : String
  tipo : String
  forma_pagamento : String
  fonte_pagamento : String
  data : String
  observacao : String
deriving DecidableEq, Repr

/-- Split on the regex `/\r?\n/`: a `\r` is consumed only when directly
followed by `\n`; a lone `\r` stays in its line. -/
def splitReNL : List Char → List (List Char)
  | [] => [[]]
  | '\r' :: '\n' :: cs => [] :: splitReNL cs
  | '\n' :: cs => [] :: splitReNL cs
  | c :: cs =>
    match splitReNL cs with
    | [] => [[c]]
    | h :: t => (c :: h) :: t

def splitLines (s : String) : List String :=
  (splitReNL s.toList).map String.mk

/-- `headerLine.replace(/^﻿/, '')`: drop one leading byte-order mark. -/
def stripBOM (s : String) : String :=
  match s.toList with
  | c :: cs => if c.val == 0xFEFF then String.mk cs else s
  | [] => s

/-- The per-line delimiter sniff of `parseCSVLine`:
`line.includes(';') ? ';' : ','`. -/
def lineDelim (l : List Char) : Char :=
  if l.any (fun c => c == ';') then ';' else ','

/-- The character loop of `parseCSVLine`, with the delimiter as a
parameter: double-quote toggling, doubled-quote escaping, fields trimmed
as they are pushed.  Fuel-driven (each step consumes at least one
character, so fuel equal to the line length always suffices). -/
def parseLineGo (delim : Char) : Nat → List Char → List Char → Bool → List String
  | _, [], cur, _ => [jsTrim (String.mk cur.reverse)]
  | 0, _ :: _, cur, _ => [jsTrim (String.mk cur.reverse)]
  | fuel + 1, c :: rest, cur, inQ =>
    if c == '"' then
      if inQ then
        match rest with
        | '"' :: rest2 => parseLineGo delim fuel rest2 ('"' :: cur) inQ
        | _ => parseLineGo delim fuel rest cur false
      else parseLineGo delim fuel rest cur true
    else if c == delim && !inQ then
      jsTrim (String.mk cur.reverse) :: parseLineGo delim fuel rest [] inQ
    else parseLineGo delim fuel rest (c :: cur) inQ

/-- Tokenize one line with an explicitly given delimiter. -/
def parseCSVLineWith (delim : Char) (line : String) : List String :=
  parseLineGo delim line.toList.length line.toList [] false

/-- `parseCSVLine` from `src/lib/csv.ts`: the delimiter is sniffed from
this very line, then the quote-aware loop runs. -/
def parseCSVLine (line : String) : List String :=
  parseCSVLineWith (lineDelim line.toList) line

/-- ASCII-only lower-casing (Lean's `Char.toLower`); JS `toLowerCase` also
maps non-ASCII letters, but every header synonym compared case-insensitively
by the code is matched through this path only on its ASCII letters. -/
def lowerStr (s : String) : String :=
  String.mk (s.toList.map Char.toLower)

def findColGo (normalizedHeaders values : List String) : List String → Option String
  | [] => none
  | name :: rest =>
    match List.findIdx? (fun h => h == lowerStr name) normalizedHeaders with
    | some index =>
      match values[index]? with
      | some v => some v
      | none => findColGo normalizedHeaders values rest
    | none => findColGo normalizedHeaders values rest

/-- `findColumn` from `src/lib/csv.ts`: first synonym whose normalized
header exists and has a value at that index wins. -/
def findColumn (headers values : List String) (possibleNames : List String) : Option String :=
  findColGo (headers.map (fun h => lowerStr (jsTrim h))) values possibleNames

/-- JS `x || dflt` on an optional string: `undefined` and `""` are falsy. -/
def jsOrDefault (v : Option String) (dflt : String) : String :=
  match v with
  | some s => if s.toList.isEmpty then dflt else s
  | none => dflt

def descricaoNames : List String := ["descrição", "descricao", "description", "pagamento", "nome"]
def valorNames : List String := ["valor", "value", "amount", "quantia"]
def tipoNames : List String := ["tipo", "type", "categoria"]
def formaNames : List String := ["forma de pagamento", "forma_pagamento", "payment_method", "metodo", "método"]
def fonteNames : List String := ["fonte", "fonte/cartão", "fonte_pagamento", "cartão", "cartao", "pagador", "source"]
def dataNames : List String := ["data", "date", "transaction_date", "dia"]
def observacaoNames : List String := ["observação", "observacao", "notes", "obs", "comentário", "comentario"]

/-- Build one raw row from a tokenized data line, given the tokenizer used
for it (abstracted so the spec's header-delimiter variant can reuse it). -/
def buildRow (headers values : List String) : TransactionCSV :=
  { descricao := jsOrDefault (findColumn headers values descricaoNames) ""
    valor := jsOrDefault (findColumn headers values valorNames) "0"
    tipo := jsOrDefault (findColumn headers values tipoNames) "expense"
    forma_pagamento := jsOrDefault (findColumn headers values formaNames) "pix"
    fonte_pagamento := jsOrDefault (findColumn headers values fonteNames) ""
    data := jsOrDefault (findColumn headers values dataNames) ""
    observacao := jsOrDefault (findColumn headers values observacaoNames) "" }

/-- `parseCSV` from `src/lib/csv.ts`.  The `throw` on fewer than two
non-blank lines is modelled as `Except.error`; fully blank tokenized rows
are skipped. -/
def parseCSV (csvContent : String) : Except String (List TransactionCSV) :=
  let lines := (splitLines csvContent).filter (fun l => !(jsTrim l).toList.isEmpty)
  if lines.length < 2 then .error "O arquivo CSV está vazio ou não contém dados"
  else
    let headerLine := stripBOM (lines.headD "")
    let headers := parseCSVLine headerLine
    .ok ((lines.drop 1).filterMap (fun line =>
      let values := parseCSVLine line
      if values.length == 0 || values.all (fun v => (jsTrim v).toList.isEmpty) then none
      else some (buildRow headers values)))

/-- The tokenizer as the spec's words describe it (claim C2): the delimiter
is determined once, from the header line, and that same delimiter is used
to tokenize every data row.  This definition exists only to be compared
with `parseCSV`. -/
def parseCSVSpecHeaderDelim (csvContent : String) : Except String (List TransactionCSV) :=
  let lines := (splitLines csvContent).filter (fun l => !(jsTrim l).toList.isEmpty)
  if lines.length < 2 then .error "O arquivo CSV está vazio ou não contém dados"
  else
    let headerLine := stripBOM (lines.headD "")
    let delim := lineDelim headerLine.toList
    let headers := parseCSVLineWith delim headerLine
    .ok ((lines.drop 1).filterMap (fun line =>
      let values := parseCSVLineWith delim line
      if values.length == 0 || values.all (fun v => (jsTrim v).toList.isEmpty) then none
      else some (buildRow headers values)))

inductive TxType where
  | income
  | expense
deriving DecidableEq, Repr

inductive PaymentMethod where
  | pix
  | boleto
  | credito
  | debito
  | dinheiro
  | transferencia
deriving DecidableEq, Repr

/-- The `TYPE_REVERSE` lookup table. -/
def TYPE_REVERSE (s : String) : Option TxType :=
  if s == "receita" then some .income
  else if s == "despesa" then some .expense
  else none

/-- The `PAYMENT_METHOD_REVERSE` lookup table. -/
def PAYMENT_METHOD_REVERSE (s : String) : Option PaymentMethod :=
  if s == "pix" then some .pix
  else if s == "boleto" then some .boleto
  else if s == "credito" then some .credito
  else if s == "crédito" then some .credito
  else if s == "debito" then some .debito
  else if s == "débito" then some .debito
  else if s == "dinheiro" then some .dinheiro
  else if s == "transferencia" then some .transferencia
  else if s == "transferência" then some .transferencia
  else none

structure ValidationError where
  row : Nat
  field : String
  message : String
deriving DecidableEq, Repr

/-- `TransactionData` (the persist-ready record).  `amount` is the exact
rational value of the JS number (validation guarantees finiteness). -/
structure TransactionData where
  description : String
  amount : ℚ
  type : TxType
  payment_method : PaymentMethod
  payment_source : Option String
  transaction_date : String
  notes : Option String
deriving DecidableEq, Repr

structure ValidationResult where
  valid : Bool
  errors : List ValidationError
  validTransactions : List TransactionData
deriving DecidableEq, Repr

def MIN_AMOUNT : ℚ := 1 / 100
def MAX_AMOUNT : ℚ := 99999999999 / 100

def JsNum.toQ : JsNum → ℚ
  | .num q => q
  | _ => 0

/-- The `/^\d{4}-\d{2}-\d{2}$/` check of the zod schema. -/
def isoDateShape (s : String) : Bool :=
  match s.toList with
  | [a, b, c, d, s1, e, f, s2, g, h] =>
    isDigitChar a && isDigitChar b && isDigitChar c && isDigitChar d &&
    s1 == '-' && isDigitChar e && isDigitChar f &&
    s2 == '-' && isDigitChar g && isDigitChar h
  | _ => false

def isLeapYear (y : Nat) : Bool :=
  (y % 4 == 0 && y % 100 != 0) || y % 400 == 0

def daysInMonth (y m : Nat) : Nat :=
  if m == 2 then (if isLeapYear y then 29 else 28)
  else if m == 4 || m == 6 || m == 9 || m == 11 then 30
  else 31

/-- Extract the numeric year/month/day of a `YYYY-MM-DD`-shaped string. -/
def isoYMD (s : String) : Option (Nat × Nat × Nat) :=
  match s.toList with
  | [a, b, c, d, s1, e, f, s2, g, h] =>
    if isDigitChar a && isDigitChar b && isDigitChar c && isDigitChar d &&
       s1 == '-' && isDigitChar e && isDigitChar f &&
       s2 == '-' && isDigitChar g && isDigitChar h then
      some (natOfDigits [a, b, c, d], natOfDigits [e, f], natOfDigits [g, h])
    else none
  | _ => none

/-- The post-schema date-range check of `validateTransactions`:
`new Date(s)` on a `YYYY-MM-DD` string is Invalid (NaN, so both range
comparisons are false) unless the components form a real calendar date;
a valid date is out of range exactly when it lies before 1990-01-01 or
after Dec 31 of `nowYear + 1`.  (`new Date(year+1, 11, 31)` is local
midnight; the at-most-hours offset between that and UTC midnight is not
modelled, so the cutoff is taken at UTC.) -/
def dateOutOfRange (nowYear : Nat) (s : String) : Bool :=
  match isoYMD s with
  | some (y, m, d) =>
    if 1 ≤ m && m ≤ 12 && 1 ≤ d && d ≤ daysInMonth y m then
      y < 1990 || y > nowYear + 1
    else false
  | none => false

/-- The zod issues for the `amount` field: `z.number()` rejects NaN as a
type error; `.min(0.01)` and `.max(999999999.99)` both run and collect. -/
def amountIssues (rowNumber : Nat) (v : JsNum) : List ValidationError :=
  match v with
  | .nan => [⟨rowNumber, "amount", "Expected number, received nan"⟩]
  | .inf => [⟨rowNumber, "amount", "Valor máximo é R$ 999.999.999,99"⟩]
  | .neginf => [⟨rowNumber, "amount", "Valor mínimo é R$ 0.01"⟩]
  | .num q =>
    (if q < MIN_AMOUNT then [⟨rowNumber, "amount", "Valor mínimo é R$ 0.01"⟩] else [])
    ++ (if q > MAX_AMOUNT then [⟨rowNumber, "amount", "Valor máximo é R$ 999.999.999,99"⟩] else [])

/-- The sanitized trimmed description the schema checks
(`sanitizeText(row.descricao.trim())`, re-trimmed by zod's `.trim()`). -/
def descTrimmedOf (row : TransactionCSV) : String :=
  jsTrim (sanitizeText (jsTrim row.descricao))

/-- The `payment_source` candidate
(`row.fonte_pagamento.trim() ? sanitizeText(...) : null`). -/
def srcInOf (row : TransactionCSV) : Option String :=
  if (jsTrim row.fonte_pagamento).toList.isEmpty then none
  else some (sanitizeText (jsTrim row.fonte_pagamento))

/-- The `notes` candidate (`row.observacao.trim() ? sanitizeText(...) : null`). -/
def notesInOf (row : TransactionCSV) : Option String :=
  if (jsTrim row.observacao).toList.isEmpty then none
  else some (sanitizeText (jsTrim row.observacao))

/-- The issues collected by `transactionSchema.safeParse` on one raw row,
in schema field order (`description`, `amount`, `type` and
`payment_method` never fail post-normalization, `payment_source`,
`transaction_date`, `notes`), each tagged with the 1-based row number. -/
def rowIssues (today : String) (rowNumber : Nat) (row : TransactionCSV) :
    List ValidationError :=
  (if (descTrimmedOf row).toList.length < 1 then
    [⟨rowNumber, "description", "Descrição é obrigatória"⟩] else [])
  ++ (if (descTrimmedOf row).toList.length > 500 then
    [⟨rowNumber, "description", "Descrição deve ter no máximo 500 caracteres"⟩] else [])
  ++ amountIssues rowNumber (parseCurrency row.valor)
  ++ (match srcInOf row with
      | some s =>
        if s.toList.length > 100 then
          [⟨rowNumber, "payment_source", "Fonte deve ter no máximo 100 caracteres"⟩] else []
      | none => [])
  ++ (if isoDateShape (parseDate today row.data) then []
      else [⟨rowNumber, "transaction_date", "Data inválida"⟩])
  ++ (match notesInOf row with
      | some s =>
        if s.toList.length > 1000 then
          [⟨rowNumber, "notes", "Observação deve ter no máximo 1000 caracteres"⟩] else []
      | none => [])

/-- The transaction produced for a row that passes the schema: zod's
output transforms (`.trim()` then `.transform(sanitizeText)` on
`description`, `.transform(sanitizeText)` under `.nullable()` on
`payment_source`/`notes`) applied to the normalized candidates. -/
def acceptedTxn (today : String) (row : TransactionCSV) : TransactionData :=
  { description := sanitizeText (descTrimmedOf row)
    amount := (parseCurrency row.valor).toQ
    type := (TYPE_REVERSE (lowerStr (jsTrim row.tipo))).getD .expense
    payment_method := (PAYMENT_METHOD_REVERSE (lowerStr (jsTrim row.forma_pagamento))).getD .pix
    payment_source := (srcInOf row).map sanitizeText
    transaction_date := parseDate today row.data
    notes := (notesInOf row).map sanitizeText }

/-- One iteration of the `csvRows.forEach` body of `validateTransactions`:
normalization, sanitization, the zod `transactionSchema.safeParse`
(all issues collected), then the extra date-range check.  Returns the
issues tagged with the 1-based row number, and the transaction when the
row is accepted. -/
def checkRow (nowYear : Nat) (today : String) (rowNumber : Nat) (row : TransactionCSV) :
    List ValidationError × Option TransactionData :=
  if (rowIssues today rowNumber row).isEmpty then
    if dateOutOfRange nowYear (parseDate today row.data) then
      ([⟨rowNumber, "transaction_date",
         "Data fora do intervalo permitido (1990-" ++ toString (nowYear + 1) ++ ")"⟩], none)
    else
      ([], some (acceptedTxn today row))
  else (rowIssues today rowNumber row, none)

/-- The indexed fold over the rows (`csvRows.forEach((row, index) => ...)`),
accumulating errors and accepted transactions in order. -/
def validateGo (nowYear : Nat) (today : String) : List TransactionCSV → Nat →
    List ValidationError × List TransactionData
  | [], _ => ([], [])
  | row :: rest, index =>
    let r := checkRow nowYear today (index + 1) row
    let acc := validateGo nowYear today rest (index + 1)
    (r.1 ++ acc.1, r.2.toList ++ acc.2)

/-- `validateTransactions` from `src/lib/csv.ts`, with the ambient clock
(`new Date().getFullYear()` and the `parseDate` fallback date) passed in
as `nowYear` / `today`. -/
def validateTransactions (nowYear : Nat) (today : String) (csvRows : List TransactionCSV) :
    ValidationResult :=
  let acc := validateGo nowYear today csvRows 0
  { valid := acc.1.isEmpty
    errors := acc.1
    validTransactions := acc.2 }

/-- `MAX_IMPORT_BATCH_SIZE` from `src/lib/csv.ts`. -/
def MAX_IMPORT_BATCH_SIZE : Nat := 500

/-- JS `Math.round` on the nonnegative values produced here:
round half away from zero is `⌊q + 1/2⌋` for `q ≥ 0`. -/
def jsRound (q : ℚ) : ℤ := ⌊q + 1 / 2⌋

/-- A row sent to the `transactions` insert by the CSV import:
`{ ...t, profile_id, user_id }`. -/
structure CsvInsertRow where
  txn : TransactionData
  profile_id : String
  user_id : String
deriving DecidableEq, Repr

def attachIds (profileId userId : String) (t : TransactionData) : CsvInsertRow :=
  ⟨t, profileId, userId⟩

/-- The batch loop of `importMutation` in `ImportCSVDialog.tsx`: batches of
50 in input order; a failed insert throws immediately.  Returns the list of
insert calls attempted (a failed call is last), the progress percentages
reported after each successful batch, and the outcome.  `db batchIdx`
says whether the insert of batch number `batchIdx` succeeds. -/
def runBatchesGo (db : Nat → Bool) (profileId userId : String) (total : Nat)
    (l : List TransactionData) (batchIdx imported : Nat) :
    List (List CsvInsertRow) × List ℤ × Except String Nat :=
  if hl : l.isEmpty then ([], [], .ok imported)
  else
    let batch := (l.take 50).map (attachIds profileId userId)
    if db batchIdx then
      let imported2 := imported + batch.length
      let rest := runBatchesGo db profileId userId total (l.drop 50) (batchIdx + 1) imported2
      (batch :: rest.1, jsRound ((imported2 : ℚ) / (total : ℚ) * 100) :: rest.2.1, rest.2.2)
    else
      ([batch], [], .error "Erro ao salvar transações. Tente novamente.")
termination_by l.length
decreasing_by
  simp only [List.length_drop]
  have hne : l ≠ [] := by simpa using hl
  have hpos : 0 < l.length := List.length_pos.mpr hne
  omega

def runBatches (db : Nat → Bool) (profileId userId : String) (ts : List TransactionData) :
    List (List CsvInsertRow) × List ℤ × Except String Nat :=
  runBatchesGo db profileId userId ts.length ts 0 0

/-- The body of `importMutation.mutationFn` (given a selected profile and
an authenticated user): re-validate the parsed rows, reject when any
validation error exists or no valid transaction remains, otherwise run the
batch loop. -/
def runImportMutation (nowYear : Nat) (today : String) (db : Nat → Bool)
    (profileId userId : String) (parsedData : List TransactionCSV) :
    List (List CsvInsertRow) × List ℤ × Except String Nat :=
  let validationResult := validateTransactions nowYear today parsedData
  if !validationResult.valid then
    ([], [], .error ("Existem " ++ toString validationResult.errors.length ++
      " erro(s) de validação. Corrija-os antes de importar."))
  else if validationResult.validTransactions.length == 0 then
    ([], [], .error "Nenhuma transação válida para importar")
  else
    runBatches db profileId userId validationResult.validTransactions

/-- Outcome of the `onDrop` handler after `parseCSV` succeeded: either an
error is shown and the dialog stays on the upload step, or the parsed rows
(and their validation errors) move to the preview step. -/
inductive DropResult where
  | rejected (msg : String)
  | preview (parsedData : List TransactionCSV) (validationErrors : List ValidationError)
deriving DecidableEq, Repr

/-- The post-parse part of `onDrop` in `ImportCSVDialog.tsx`: empty check,
then the `MAX_IMPORT_BATCH_SIZE` ceiling (checked before any validation or
persistence), then validation for the preview. -/
def onDropHandle (nowYear : Nat) (today : String) (parsed : List TransactionCSV) : DropResult :=
  if parsed.length == 0 then
    .rejected "Nenhum dado válido encontrado no arquivo CSV"
  else if parsed.length > MAX_IMPORT_BATCH_SIZE then
    .rejected ("O arquivo contém " ++ toString parsed.length ++
      " linhas. O máximo permitido é " ++ toString MAX_IMPORT_BATCH_SIZE ++
      " transações por importação.")
  else
    .preview parsed (validateTransactions nowYear today parsed).errors

/-- The dialog flow from tokenized rows to the import mutation: a rejected
drop never reaches the mutation, so it makes no insert call and surfaces
the single rejection message. -/
def importFromParsed (nowYear : Nat) (today : String) (db : Nat → Bool)
    (profileId userId : String) (parsed : List TransactionCSV) :
    List (List CsvInsertRow) × List ℤ × Except String Nat :=
  match onDropHandle nowYear today parsed with
  | .rejected msg => ([], [], .error msg)
  | .preview parsedData _ => runImportMutation nowYear today db profileId userId parsedData

/-- The full flow from raw file content (`parseCSV` may throw). -/
def csvImportFlow (nowYear : Nat) (today : String) (db : Nat → Bool)
    (profileId userId : String) (content : String) :
    List (List CsvInsertRow) × List ℤ × Except String Nat :=
  match parseCSV content with
  | .error e => ([], [], .error e)
  | .ok parsed => importFromParsed nowYear today db profileId userId parsed

/-- The `uploaded_files` row fields touched by the pipeline. -/
structure FileRecord where
  id : String
  user_id : String
  storage_path : String
  file_type : String
  status : String
  processed_count : Nat
  error_message : Option String
deriving DecidableEq, Repr

structure ProfileRecord where
  id : String
  user_id : String
deriving DecidableEq, Repr

/-- `ExtractedTransaction` from
`supabase/functions/process-bank-statement/index.ts` (one element of the
AI response's `transactions` array; JSON numbers are finite, hence `ℚ`). -/
structure ExtractedTransaction where
  description : String
  amount : ℚ
  type : TxType
  payment_method : PaymentMethod
  payment_source : Option String
  transaction_date : String
  notes : Option String
deriving DecidableEq, Repr

/-- A row of the pipeline's `transactions` insert. -/
structure AiInsertRow where
  description : String
  amount : ℚ
  type : TxType
  payment_method : PaymentMethod
  payment_source : Option String
  transaction_date : String
  notes : Option String
  profile_id : String
  user_id : String
deriving DecidableEq, Repr

/-- JS `Math.abs` on a finite number. -/
def jsAbs (q : ℚ) : ℚ := if q < 0 then -q else q

/-- The `extractedData.transactions.map(...)` building `transactionsToInsert`:
amount forced to its absolute value, free-text fields passed through
unchanged, ids attached from the request/authenticated user. -/
def toInsertRow (profileId userId : String) (t : ExtractedTransaction) : AiInsertRow :=
  { description := t.description
    amount := jsAbs t.amount
    type := t.type
    payment_method := t.payment_method
    payment_source := t.payment_source
    transaction_date := t.transaction_date
    notes := t.notes
    profile_id := profileId
    user_id := userId }

def transactionsToInsert (profileId userId : String) (ts : List ExtractedTransaction) :
    List AiInsertRow :=
  ts.map (toInsertRow profileId userId)

/-- A successful database effect performed by the pipeline, in order.
The three `uploaded_files` updates carry exactly the fields the code sets. -/
inductive DbWrite where
  | setProcessing (fileId : String)
  | setFailed (fileId : String) (errorMessage : String)
  | setCompleted (fileId : String) (processedCount : Nat)
  | insertTransactions (rows : List AiInsertRow)
deriving DecidableEq, Repr

/-- Result of `JSON.parse` on the cleaned AI content, at the granularity
the code inspects it: `transactions := none` models a missing, falsy or
non-array `transactions` field (all rejected by the
`!extractedData.transactions || !Array.isArray(...)` guard). -/
structure ParsedAI where
  transactions : Option (List ExtractedTransaction)
deriving DecidableEq, Repr

structure ReqBody where
  fileId : Option String
  profileId : Option String
deriving DecidableEq, Repr

/-- The results of every external interaction of one pipeline invocation:
JWT resolution, env key, request-body JSON parse, database lookups, the
storage download, the AI gateway response and the `JSON.parse` oracle, and
whether the bulk insert succeeds. -/
structure PipelineEnv where
  authUser : Option String
  hasApiKey : Bool
  body : Option ReqBody
  fileRec : String → Option FileRecord
  profileRec : String → Option ProfileRecord
  downloadOk : String → Bool
  aiStatus : Nat
  aiContent : Option String
  parseJson : String → Option ParsedAI
  insertOk : Bool

inductive RespBody where
  | err (msg : String)
  | ok (transactionsCount : Nat)
deriving DecidableEq, Repr

structure Resp where
  status : Nat
  body : RespBody
deriving DecidableEq, Repr

def MSG_UNAUTHORIZED : String := "Acesso não autorizado"
def MSG_FORBIDDEN : String := "Você não tem permissão para acessar este recurso"
def MSG_NOT_FOUND : String := "Arquivo não encontrado"
def MSG_PROCESSING_FAILED : String := "Falha ao processar o arquivo"
def MSG_RATE_LIMITED : String := "Limite de requisições excedido. Tente novamente mais tarde."
def MSG_INSUFFICIENT_CREDITS : String := "Créditos de IA insuficientes"
def MSG_INVALID_REQUEST : String := "Requisição inválida"

/-- JS truthiness of a possibly-undefined string (`!fileId`). -/
def jsTruthy (v : Option String) : Bool :=
  match v with
  | some s => !s.toList.isEmpty
  | none => false

def jsStartsWith (pat s : String) : Bool :=
  s.toList.take pat.toList.length == pat.toList

def jsEndsWith (pat s : String) : Bool :=
  (s.toList.drop (s.toList.length - pat.toList.length)) == pat.toList &&
  s.toList.length ≥ pat.toList.length

/-- The Markdown-fence cleanup applied to the AI content before
`JSON.parse`: trim, strip a leading ` ```json ` (7 chars) or ` ``` `
(3 chars), strip a trailing ` ``` `, trim again. -/
def cleanAiContent (aiContent : String) : String :=
  let c0 := jsTrim aiContent
  let c1 :=
    if jsStartsWith "```json" c0 then String.mk (c0.toList.drop 7)
    else if jsStartsWith "```" c0 then String.mk (c0.toList.drop 3)
    else c0
  let c2 :=
    if jsEndsWith "```" c1 then String.mk (c1.toList.take (c1.toList.length - 3))
    else c1
  jsTrim c2

/-- The request handler of
`supabase/functions/process-bank-statement/index.ts` as a pure function:
response plus the ordered list of successful database effects.  A thrown
`req.json()` (`body = none`) lands in the outer catch, whose recovery
re-parse also fails, so nothing is written.  A failed bulk insert commits
nothing, so it contributes no `insertTransactions` effect. -/
def processBankStatement (env : PipelineEnv) : Resp × List DbWrite :=
  match env.authUser with
  | none => (⟨401, .err MSG_UNAUTHORIZED⟩, [])
  | some authenticatedUserId =>
    if !env.hasApiKey then (⟨500, .err MSG_PROCESSING_FAILED⟩, [])
    else
      match env.body with
      | none => (⟨500, .err MSG_PROCESSING_FAILED⟩, [])
      | some body =>
        if !(jsTruthy body.fileId && jsTruthy body.profileId) then
          (⟨400, .err MSG_INVALID_REQUEST⟩, [])
        else
          let fileId := body.fileId.getD ""
          let profileId := body.profileId.getD ""
          match env.fileRec fileId with
          | none => (⟨404, .err MSG_NOT_FOUND⟩, [])
          | some fileRecord =>
            if fileRecord.user_id != authenticatedUserId then
              (⟨403, .err MSG_FORBIDDEN⟩, [])
            else
              match env.profileRec profileId with
              | none => (⟨404, .err MSG_NOT_FOUND⟩, [])
              | some profileRecord =>
                if profileRecord.user_id != authenticatedUserId then
                  (⟨403, .err MSG_FORBIDDEN⟩, [])
                else
                  if !env.downloadOk fileRecord.storage_path then
                    (⟨500, .err MSG_PROCESSING_FAILED⟩,
                      [.setProcessing fileId, .setFailed fileId MSG_PROCESSING_FAILED])
                  else if !(200 ≤ env.aiStatus && env.aiStatus ≤ 299) then
                    if env.aiStatus == 429 then
                      (⟨429, .err MSG_RATE_LIMITED⟩,
                        [.setProcessing fileId, .setFailed fileId MSG_RATE_LIMITED])
                    else if env.aiStatus == 402 then
                      (⟨402, .err MSG_INSUFFICIENT_CREDITS⟩,
                        [.setProcessing fileId, .setFailed fileId MSG_INSUFFICIENT_CREDITS])
                    else
                      (⟨500, .err MSG_PROCESSING_FAILED⟩,
                        [.setProcessing fileId, .setFailed fileId MSG_PROCESSING_FAILED])
                  else
                    match env.aiContent with
                    | none =>
                      (⟨500, .err MSG_PROCESSING_FAILED⟩,
                        [.setProcessing fileId, .setFailed fileId MSG_PROCESSING_FAILED])
                    | some aiContent =>
                      match env.parseJson (cleanAiContent aiContent) with
                      | none =>
                        (⟨500, .err MSG_PROCESSING_FAILED⟩,
                          [.setProcessing fileId, .setFailed fileId MSG_PROCESSING_FAILED])
                      | some extractedData =>
                        match extractedData.transactions with
                        | none =>
                          (⟨500, .err MSG_PROCESSING_FAILED⟩,
                            [.setProcessing fileId, .setFailed fileId MSG_PROCESSING_FAILED])
                        | some txs =>
                          let rows := transactionsToInsert profileId authenticatedUserId txs
                          if rows.length > 0 then
                            if !env.insertOk then
                              (⟨500, .err MSG_PROCESSING_FAILED⟩,
                                [.setProcessing fileId, .setFailed fileId MSG_PROCESSING_FAILED])
                            else
                              (⟨200, .ok rows.length⟩,
                                [.setProcessing fileId, .insertTransactions rows,
                                 .setCompleted fileId rows.length])
                          else
                            (⟨200, .ok rows.length⟩,
                              [.setProcessing fileId, .setCompleted fileId rows.length])

/-- Effect of one database write on one `uploaded_files` row
(`.eq("id", fileId)` filtering included). -/
def applyWrite (f : FileRecord) (w : DbWrite) : FileRecord :=
  match w with
  | .setProcessing fid => if fid == f.id then { f with status := "processing" } else f
  | .setFailed fid msg =>
    if fid == f.id then { f with status := "failed", error_message := some msg } else f
  | .setCompleted fid n =>
    if fid == f.id then
      { f with status := "completed", processed_count := n, error_message := none }
    else f
  | .insertTransactions _ => f

def applyWrites (f : FileRecord) (ws : List DbWrite) : FileRecord :=
  ws.foldl applyWrite f

/-! ## Theorems -/

example : sanitizeText "<b>x</b>" = "bx/b" := by decide
example : sanitizeText "  hi there  " = "hi there" := by decide
example : sanitizeText "onclick=alert(1)" = "alert(1)" := by decide
example : sanitizeText "jAvAsCrIpT:boo" = "boo" := by decide
example : parseCurrency "abc" = .num 0 := by decide
example : parseCurrency "Infinity" = .inf := by decide
example : parseDate "2026-10-11" "05/01/2024" = "2024-01-05" := by decide
example : parseDate "2026-10-11" "2024-01-05T10:00:00" = "2024-01-05" := by decide
example : parseDate "2026-10-11" "gibberish" = "2026-10-11" := by decide
example : parseDate "2026-10-11" "a/b/c" = "c-0b-0a" := by decide

/-- Claim C8, counterexample: the cleaned input `"Infinity"` does not
denote a finite number, yet `parseCurrency` returns Infinity, not 0
(`parseFloat("Infinity")` is Infinity, which is truthy, so `|| 0` keeps
it). -/
theorem parseCurrency_infinity_cex :
    parseCurrency "Infinity" = JsNum.inf ∧ JsNum.inf ≠ JsNum.num 0 := by
  constructor
  · rfl
  · intro h
    exact JsNum.noConfusion h

/-- Claim C8, amended: `parseCurrency` is total and never yields NaN; it
returns exactly 0 whenever the cleaned input does not parse as any number
(`parseFloat` NaN); but a cleaned input denoting ±Infinity is returned
as that infinity, not 0. -/
theorem parseCurrency_characterization (value : String) :
    parseCurrency value ≠ JsNum.nan
    ∧ (parseFloatJS (cleanedCurrency value) = JsNum.nan → parseCurrency value = JsNum.num 0)
    ∧ (∀ v, parseFloatJS (cleanedCurrency value) = v → v ≠ JsNum.nan → parseCurrency value = v) := by
  cases h : parseFloatJS (cleanedCurrency value) with
  | nan =>
    refine ⟨?_, fun _ => ?_, fun v hv hne => ?_⟩
    · simp [parseCurrency, h]
    · simp [parseCurrency, h]
    · exact absurd hv.symm hne
  | inf =>
    exact ⟨by simp [parseCurrency, h], by simp [h], fun v hv _ => by simp [parseCurrency, h, ← hv]⟩
  | neginf =>
    exact ⟨by simp [parseCurrency, h], by simp [h], fun v hv _ => by simp [parseCurrency, h, ← hv]⟩
  | num q =>
    exact ⟨by simp [parseCurrency, h], by simp [h], fun v hv _ => by simp [parseCurrency, h, ← hv]⟩

/-- Witness for `parseCurrency_characterization` at `"abc"`, whose
cleaned form parses to NaN. -/
theorem parseCurrency_characterization_witness :
    parseCurrency "abc" = JsNum.num 0 :=
  (parseCurrency_characterization "abc").2.1 (by decide)

/-- Claim C9, counterexample: `"a/b/c"` is neither `DD/MM/YYYY`-shaped nor
ISO, so by the claim the result should be today's date; the code instead
reassembles the slash parts without validating digits. -/
theorem parseDate_garbage_slash_cex :
    parseDate "1999-12-31" "a/b/c" = "c-0b-0a" ∧ ("c-0b-0a" : String) ≠ "1999-12-31" := by
  constructor
  · rfl
  · decide

/-- Claim C9, amended: `parseDate` has exactly three outcomes, but the
branch guards are purely structural: any input with exactly three
`/`-separated parts is reassembled as `part3-pad2(part2)-pad2(part1)`
(digits are never checked); otherwise any input containing `-` is passed
through truncated at the first `T`; otherwise the result is today's
date. -/
theorem parseDate_branches (today s : String) :
    ((jsSplitChar '/' s).length = 3 ∧
      parseDate today s =
        (jsSplitChar '/' s)[2]! ++ "-" ++ padStart2 (jsSplitChar '/' s)[1]! ++ "-" ++
          padStart2 (jsSplitChar '/' s)[0]!)
    ∨ ((jsSplitChar '/' s).length ≠ 3 ∧ s.toList.any (fun c => c == '-') = true ∧
      parseDate today s = (jsSplitChar 'T' s).headD "")
    ∨ ((jsSplitChar '/' s).length ≠ 3 ∧ s.toList.any (fun c => c == '-') = false ∧
      parseDate today s = today) := by
  by_cases h3 : (jsSplitChar '/' s).length = 3
  · exact Or.inl ⟨h3, by simp [parseDate, h3]⟩
  · have h3' : ((jsSplitChar '/' s).length == 3) = false := by simp [h3]
    cases hdash : s.toList.any (fun c => c == '-') with
    | true =>
      refine Or.inr (Or.inl ⟨h3, rfl, ?_⟩)
      unfold parseDate
      simp only [h3', hdash]
      simp
    | false =>
      refine Or.inr (Or.inr ⟨h3, rfl, ?_⟩)
      unfold parseDate
      simp only [h3', hdash]
      simp

/-- Claim C2, counterexample: with header `descricao,valor` (comma) and
data row `x;5`, the code tokenizes the data row on `;` (its own sniff),
not on the header's comma: the produced row differs from the one the
spec's header-determined tokenization would build. -/
theorem parseCSV_per_row_delim_cex :
    parseCSV "descricao,valor\nx;5" =
      .ok [{ descricao := "x", valor := "5", tipo := "expense", forma_pagamento := "pix",
             fonte_pagamento := "", data := "", observacao := "" }]
    ∧ parseCSVSpecHeaderDelim "descricao,valor\nx;5" =
      .ok [{ descricao := "x;5", valor := "0", tipo := "expense", forma_pagamento := "pix",
             fonte_pagamento := "", data := "", observacao := "" }]
    ∧ ({ descricao := "x", valor := "5", tipo := "expense", forma_pagamento := "pix",
         fonte_pagamento := "", data := "", observacao := "" } : TransactionCSV) ≠
      { descricao := "x;5", valor := "0", tipo := "expense", forma_pagamento := "pix",
        fonte_pagamento := "", data := "", observacao := "" } := by
  refine ⟨rfl, rfl, by decide⟩

/-- Claim C2, amended: the delimiter is sniffed per line, not once from
the header; the spec's header-determined tokenization coincides with the
code exactly on inputs where every non-blank line sniffs the same
delimiter as the header line. -/
theorem parseCSV_uniform_delim (content : String)
    (h : ∀ l ∈ (splitLines content).filter (fun l => !(jsTrim l).toList.isEmpty),
      lineDelim l.toList =
        lineDelim (stripBOM
          (((splitLines content).filter (fun l => !(jsTrim l).toList.isEmpty)).headD "")).toList) :
    parseCSV content = parseCSVSpecHeaderDelim content := by
  unfold parseCSV parseCSVSpecHeaderDelim
  simp only []
  by_cases hlen : ((splitLines content).filter (fun l => !(jsTrim l).toList.isEmpty)).length < 2
  · rw [if_pos hlen, if_pos hlen]
  · rw [if_neg hlen, if_neg hlen]
    congr 1
    apply List.filterMap_congr
    intro line hline
    simp only [parseCSVLine]
    rw [h line (List.mem_of_mem_drop hline)]

/-- Witness for `parseCSV_uniform_delim`: a two-line all-semicolon file. -/
theorem parseCSV_uniform_delim_witness :
    parseCSV "descricao;valor\na;1" = parseCSVSpecHeaderDelim "descricao;valor\na;1" :=
  parseCSV_uniform_delim "descricao;valor\na;1" (by decide)

/-- Claim C6: a parsed CSV import with more than `MAX_IMPORT_BATCH_SIZE`
(500) rows is rejected by the drop handler before validation or any
persistence: the flow makes no insert call, reports no progress, and
surfaces the single size-limit rejection. -/
theorem import_over_limit_rejected (nowYear : Nat) (today : String) (db : Nat → Bool)
    (profileId userId : String) (parsed : List TransactionCSV)
    (h : parsed.length > MAX_IMPORT_BATCH_SIZE) :
    importFromParsed nowYear today db profileId userId parsed =
      ([], [], .error ("O arquivo contém " ++ toString parsed.length ++
        " linhas. O máximo permitido é " ++ toString MAX_IMPORT_BATCH_SIZE ++
        " transações por importação.")) := by
  have h0 : (parsed.length == 0) = false := by
    simp only [beq_eq_false_iff_ne, ne_eq]
    omega
  have h1 : parsed.length > MAX_IMPORT_BATCH_SIZE := h
  unfold importFromParsed onDropHandle
  simp only [h0, Bool.false_eq_true, if_false, if_pos h1]

/-- Witness for `import_over_limit_rejected` on 501 blank rows. -/
theorem import_over_limit_rejected_witness :
    importFromParsed 2026 "2026-10-11" (fun _ => true) "p1" "u1"
        (List.replicate 501 (⟨"", "", "", "", "", "", ""⟩ : TransactionCSV)) =
      ([], [], .error ("O arquivo contém " ++
        toString (List.replicate 501 (⟨"", "", "", "", "", "", ""⟩ : TransactionCSV)).length ++
        " linhas. O máximo permitido é " ++ toString MAX_IMPORT_BATCH_SIZE ++
        " transações por importação.")) :=
  import_over_limit_rejected 2026 "2026-10-11" (fun _ => true) "p1" "u1" _
    (by simp only [List.length_replicate, MAX_IMPORT_BATCH_SIZE]; omega)

/-- Claim C4: an authenticated caller who does not own the referenced file
(or does not own the target profile) gets 403, and the pipeline performs
no database write at all — in particular the file record's `status`,
`processed_count` and `error_message` are unchanged. -/
theorem pipeline_forbidden_no_write (env : PipelineEnv) (u : String) (b : ReqBody)
    (f : FileRecord)
    (hauth : env.authUser = some u) (hkey : env.hasApiKey = true)
    (hbody : env.body = some b)
    (hfid : jsTruthy b.fileId = true) (hpid : jsTruthy b.profileId = true)
    (hfile : env.fileRec (b.fileId.getD "") = some f)
    (hmis : f.user_id ≠ u ∨
      ∃ p, env.profileRec (b.profileId.getD "") = some p ∧ p.user_id ≠ u) :
    (processBankStatement env).1.status = 403 ∧ (processBankStatement env).2 = [] ∧
      ∀ g : FileRecord, applyWrites g (processBankStatement env).2 = g := by
  have hmain : processBankStatement env = (⟨403, .err MSG_FORBIDDEN⟩, []) := by
    unfold processBankStatement
    rcases hmis with hne | ⟨p, hp, hpne⟩
    · simp [hauth, hkey, hbody, hfid, hpid, hfile, bne_iff_ne, hne]
    · by_cases hfu : f.user_id = u
      · simp [hauth, hkey, hbody, hfid, hpid, hfile, hfu, hp, bne_iff_ne, hpne]
      · simp [hauth, hkey, hbody, hfid, hpid, hfile, bne_iff_ne, hfu]
  rw [hmain]
  exact ⟨rfl, rfl, fun g => rfl⟩

def fileRecC4 : FileRecord :=
  { id := "f1", user_id := "u2", storage_path := "s1", file_type := "application/pdf",
    status := "pending", processed_count := 0, error_message := none }

/-- An invocation by caller `u1` against a file owned by `u2`. -/
def envC4 : PipelineEnv :=
  { authUser := some "u1", hasApiKey := true
    body := some { fileId := some "f1", profileId := some "p1" }
    fileRec := fun i => if i == "f1" then some fileRecC4 else none
    profileRec := fun _ => none
    downloadOk := fun _ => false, aiStatus := 500, aiContent := none
    parseJson := fun _ => none, insertOk := false }

/-- Witness for `pipeline_forbidden_no_write`. -/
theorem pipeline_forbidden_no_write_witness :
    (processBankStatement envC4).1.status = 403 ∧ (processBankStatement envC4).2 = [] ∧
      ∀ g : FileRecord, applyWrites g (processBankStatement envC4).2 = g :=
  pipeline_forbidden_no_write envC4 "u1" { fileId := some "f1", profileId := some "p1" }
    fileRecC4 rfl rfl rfl rfl rfl rfl (Or.inl (by decide))

/-- Claim C10: when the happy path reaches a parsed AI response whose
`transactions` field is an empty array, the pipeline performs no insert,
still marks the file `completed` with `processed_count = 0` and
`error_message` cleared to `null`, and responds 200 with
`transactionsCount = 0`. -/
theorem pipeline_empty_transactions_completed (env : PipelineEnv) (u : String) (b : ReqBody)
    (f : FileRecord) (p : ProfileRecord) (s : String)
    (hauth : env.authUser = some u) (hkey : env.hasApiKey = true)
    (hbody : env.body = some b)
    (hfid : jsTruthy b.fileId = true) (hpid : jsTruthy b.profileId = true)
    (hfile : env.fileRec (b.fileId.getD "") = some f) (hfu : f.user_id = u)
    (hprof : env.profileRec (b.profileId.getD "") = some p) (hpu : p.user_id = u)
    (hdl : env.downloadOk f.storage_path = true)
    (hst1 : 200 ≤ env.aiStatus) (hst2 : env.aiStatus ≤ 299)
    (hct : env.aiContent = some s)
    (hpj : env.parseJson (cleanAiContent s) = some { transactions := some [] }) :
    processBankStatement env =
      ({ status := 200, body := .ok 0 },
       [.setProcessing (b.fileId.getD ""), .setCompleted (b.fileId.getD "") 0]) ∧
    (f.id = b.fileId.getD "" →
      applyWrites f (processBankStatement env).2 =
        { f with status := "completed", processed_count := 0, error_message := none }) := by
  have hmain : processBankStatement env =
      ({ status := 200, body := .ok 0 },
       [.setProcessing (b.fileId.getD ""), .setCompleted (b.fileId.getD "") 0]) := by
    unfold processBankStatement
    simp [hauth, hkey, hbody, hfid, hpid, hfile, hfu, hprof, hpu, hdl, hct, hst1, hst2,
      hpj, transactionsToInsert]
  refine ⟨hmain, fun hid => ?_⟩
  rw [hmain]
  have hb : (b.fileId.getD "" == f.id) = true := by rw [hid]; exact beq_self_eq_true _
  simp [applyWrites, applyWrite, hb]

def fileRecC10 : FileRecord :=
  { id := "f1", user_id := "u1", storage_path := "s1", file_type := "application/pdf",
    status := "pending", processed_count := 0, error_message := none }

def profRecC10 : ProfileRecord := { id := "p1", user_id := "u1" }

/-- A fully-authorized invocation whose AI response parses to
`{"transactions": []}`. -/
def envC10 : PipelineEnv :=
  { authUser := some "u1", hasApiKey := true
    body := some { fileId := some "f1", profileId := some "p1" }
    fileRec := fun i => if i == "f1" then some fileRecC10 else none
    profileRec := fun i => if i == "p1" then some profRecC10 else none
    downloadOk := fun _ => true, aiStatus := 200, aiContent := some "{ }"
    parseJson := fun _ => some { transactions := some [] }, insertOk := true }

/-- Witness for `pipeline_empty_transactions_completed`. -/
theorem pipeline_empty_transactions_completed_witness :
    processBankStatement envC10 =
      ({ status := 200, body := .ok 0 }, [.setProcessing "f1", .setCompleted "f1" 0]) ∧
    (fileRecC10.id = "f1" →
      applyWrites fileRecC10 (processBankStatement envC10).2 =
        { fileRecC10 with status := "completed", processed_count := 0, error_message := none }) :=
  pipeline_empty_transactions_completed envC10 "u1"
    { fileId := some "f1", profileId := some "p1" } fileRecC10 profRecC10 "{ }"
    rfl rfl rfl rfl rfl rfl rfl rfl rfl rfl (by decide) (by decide) rfl rfl

def txC1 : ExtractedTransaction :=
  { description := "<b>x</b>", amount := 10, type := .expense, payment_method := .pix,
    payment_source := some "src", transaction_date := "2024-01-05", notes := some "note" }

def rowC1 : AiInsertRow :=
  { description := "<b>x</b>", amount := 10, type := .expense, payment_method := .pix,
    payment_source := some "src", transaction_date := "2024-01-05", notes := some "note",
    profile_id := "p1", user_id := "u1" }

/-- A fully-authorized invocation whose AI response contains one
transaction with description `"<b>x</b>"`. -/
def envC1 : PipelineEnv :=
  { authUser := some "u1", hasApiKey := true
    body := some { fileId := some "f1", profileId := some "p1" }
    fileRec := fun i => if i == "f1" then some fileRecC10 else none
    profileRec := fun i => if i == "p1" then some profRecC10 else none
    downloadOk := fun _ => true, aiStatus := 200, aiContent := some "{ }"
    parseJson := fun _ => some { transactions := some [txC1] }, insertOk := true }

/-- Claim C1, counterexample: the AI-extraction path persists the
extracted `description` (and `payment_source`, `notes`) verbatim — here
`"<b>x</b>"`, which is not a fixed point of the sanitizer, so the stored
value is not the sanitizer's output. -/
theorem aiPath_stores_unsanitized_cex :
    (processBankStatement envC1).2 =
      [.setProcessing "f1", .insertTransactions [rowC1], .setCompleted "f1" 1]
    ∧ (processBankStatement envC1).1.status = 200
    ∧ rowC1.description = "<b>x</b>"
    ∧ sanitizeText "<b>x</b>" ≠ "<b>x</b>" := by
  refine ⟨rfl, rfl, rfl, by decide⟩

def txC5 : ExtractedTransaction :=
  { description := "zero", amount := 0, type := .expense, payment_method := .pix,
    payment_source := none, transaction_date := "2024-01-05", notes := none }

def rowC5 : AiInsertRow :=
  { description := "zero", amount := 0, type := .expense, payment_method := .pix,
    payment_source := none, transaction_date := "2024-01-05", notes := none,
    profile_id := "p1", user_id := "u1" }

/-- A fully-authorized invocation whose AI response contains one
transaction with amount 0 (a value `JSON.parse` can produce). -/
def envC5 : PipelineEnv :=
  { authUser := some "u1", hasApiKey := true
    body := some { fileId := some "f1", profileId := some "p1" }
    fileRec := fun i => if i == "f1" then some fileRecC10 else none
    profileRec := fun i => if i == "p1" then some profRecC10 else none
    downloadOk := fun _ => true, aiStatus := 200, aiContent := some "{ }"
    parseJson := fun _ => some { transactions := some [txC5] }, insertOk := true }

/-- Claim C5, counterexample: the AI path only takes `Math.abs`, so an
extracted amount of 0 is persisted as 0 — not strictly greater than 0 —
and the pipeline still reports success (there is no amount check in the
pipeline, and the `transactions.amount` column has no positivity
constraint in the schema). -/
theorem aiPath_zero_amount_cex :
    (processBankStatement envC5).2 =
      [.setProcessing "f1", .insertTransactions [rowC5], .setCompleted "f1" 1]
    ∧ (processBankStatement envC5).1.status = 200
    ∧ rowC5.amount = 0
    ∧ ¬((0 : ℚ) < 0) := by
  exact ⟨rfl, rfl, rfl, lt_irrefl 0⟩

theorem amountIssues_nil {n : Nat} {v : JsNum} (h : amountIssues n v = []) :
    ∃ q, v = .num q ∧ MIN_AMOUNT ≤ q ∧ q ≤ MAX_AMOUNT := by
  cases v with
  | nan => simp [amountIssues] at h
  | inf => simp [amountIssues] at h
  | neginf => simp [amountIssues] at h
  | num q =>
    by_cases h1 : q < MIN_AMOUNT
    · simp [amountIssues, h1] at h
    · by_cases h2 : q > MAX_AMOUNT
      · simp [amountIssues, h1, h2] at h
      · exact ⟨q, rfl, le_of_not_lt h1, le_of_not_lt h2⟩

/-- Shape of a row accepted by one validator iteration: the stored
`description` is a sanitizer output, `payment_source`/`notes` are null or
sanitizer outputs, and the amount is finite and within the zod bounds. -/
theorem checkRow_some_shape {nowYear : Nat} {today : String} {n : Nat} {row : TransactionCSV}
    {t : TransactionData} (h : (checkRow nowYear today n row).2 = some t) :
    (∃ a, t.description = sanitizeText a)
    ∧ (t.payment_source = none ∨ ∃ b, t.payment_source = some (sanitizeText b))
    ∧ (t.notes = none ∨ ∃ c, t.notes = some (sanitizeText c))
    ∧ MIN_AMOUNT ≤ t.amount ∧ t.amount ≤ MAX_AMOUNT := by
  unfold checkRow at h
  split at h
  · rename_i hIss
    split at h
    · simp at h
    · simp only [Option.some.injEq] at h
      subst h
      rw [List.isEmpty_iff] at hIss
      unfold rowIssues at hIss
      simp only [List.append_eq_nil] at hIss
      obtain ⟨⟨⟨⟨⟨-, -⟩, hAmt⟩, -⟩, -⟩, -⟩ := hIss
      obtain ⟨q, hq, hmin, hmax⟩ := amountIssues_nil hAmt
      refine ⟨⟨_, rfl⟩, ?_, ?_, ?_, ?_⟩
      · show (srcInOf row).map sanitizeText = none ∨
          ∃ b, (srcInOf row).map sanitizeText = some (sanitizeText b)
        unfold srcInOf
        by_cases hc : (jsTrim row.fonte_pagamento).toList.isEmpty = true
        · rw [if_pos hc]; exact Or.inl rfl
        · rw [if_neg hc]; exact Or.inr ⟨_, rfl⟩
      · show (notesInOf row).map sanitizeText = none ∨
          ∃ c, (notesInOf row).map sanitizeText = some (sanitizeText c)
        unfold notesInOf
        by_cases hc : (jsTrim row.observacao).toList.isEmpty = true
        · rw [if_pos hc]; exact Or.inl rfl
        · rw [if_neg hc]; exact Or.inr ⟨_, rfl⟩
      · show MIN_AMOUNT ≤ (parseCurrency row.valor).toQ
        rw [hq]
        exact hmin
      · show (parseCurrency row.valor).toQ ≤ MAX_AMOUNT
        rw [hq]
        exact hmax
  · simp at h

/-- Lift a per-row property of accepted transactions through the indexed
fold of the validator. -/
theorem validateGo_snd_forall {nowYear : Nat} {today : String} {P : TransactionData → Prop}
    (hP : ∀ n row t, (checkRow nowYear today n row).2 = some t → P t) :
    ∀ (rows : List TransactionCSV) (idx : Nat),
      ((validateGo nowYear today rows idx).2).Forall P := by
  intro rows
  induction rows with
  | nil => intro idx; simp [validateGo]
  | cons r rest ih =>
    intro idx
    simp only [validateGo]
    rw [List.forall_iff_forall_mem]
    intro t ht
    rcases List.mem_append.mp ht with h1 | h2
    · cases hc : (checkRow nowYear today (idx + 1) r).2 with
      | none => rw [hc] at h1; simp at h1
      | some t0 =>
        rw [hc] at h1
        simp only [Option.toList_some, List.mem_singleton] at h1
        subst h1
        exact hP _ _ _ hc
    · have hall := ih (idx + 1)
      rw [List.forall_iff_forall_mem] at hall
      exact hall t h2

/-- Claim C1, amended: only the CSV path sanitizes.  Every transaction the
Validator accepts stores sanitizer outputs for `description`,
`payment_source` and `notes`; the AI-extraction path persists those three
fields exactly as extracted, with no sanitization. -/
theorem sanitize_paths_amended :
    (∀ profileId userId t,
      (toInsertRow profileId userId t).description = t.description
      ∧ (toInsertRow profileId userId t).payment_source = t.payment_source
      ∧ (toInsertRow profileId userId t).notes = t.notes)
    ∧ (∀ nowYear today rows,
      ((validateTransactions nowYear today rows).validTransactions).Forall (fun t =>
        (∃ a, t.description = sanitizeText a)
        ∧ (t.payment_source = none ∨ ∃ b, t.payment_source = some (sanitizeText b))
        ∧ (t.notes = none ∨ ∃ c, t.notes = some (sanitizeText c)))) := by
  constructor
  · exact fun _ _ _ => ⟨rfl, rfl, rfl⟩
  · intro nowYear today rows
    exact validateGo_snd_forall
      (fun n row t h =>
        ⟨(checkRow_some_shape h).1, (checkRow_some_shape h).2.1, (checkRow_some_shape h).2.2.1⟩)
      rows 0

/-- Claim C5, amended: every transaction accepted by the CSV Validator has
`amount` within `[0.01, 999999999.99]` (hence strictly positive); the AI
path persists `Math.abs` of the extracted amount — nonnegative, but not
necessarily strictly positive.  Sign is never carried by `amount` on
either path. -/
theorem amount_invariants_amended :
    (∀ nowYear today rows,
      ((validateTransactions nowYear today rows).validTransactions).Forall (fun t =>
        MIN_AMOUNT ≤ t.amount ∧ t.amount ≤ MAX_AMOUNT ∧ 0 < t.amount))
    ∧ (∀ profileId userId t, (toInsertRow profileId userId t).amount = jsAbs t.amount)
    ∧ (∀ profileId userId ts,
      (transactionsToInsert profileId userId ts).Forall (fun r => 0 ≤ r.amount)) := by
  refine ⟨?_, fun _ _ _ => rfl, ?_⟩
  · intro nowYear today rows
    apply validateGo_snd_forall
    intro n row t h
    obtain ⟨-, -, -, h1, h2⟩ := checkRow_some_shape h
    refine ⟨h1, h2, lt_of_lt_of_le ?_ h1⟩
    norm_num [MIN_AMOUNT]
  · intro pid uid ts
    rw [List.forall_iff_forall_mem]
    intro r hr
    simp only [transactionsToInsert, List.mem_map] at hr
    obtain ⟨t, -, rfl⟩ := hr
    show (0 : ℚ) ≤ jsAbs t.amount
    unfold jsAbs
    split_ifs with hlt
    · linarith
    · exact le_of_not_lt hlt

theorem runBatchesGo_nil (db : Nat → Bool) (profileId userId : String) (total bi imp : Nat) :
    runBatchesGo db profileId userId total [] bi imp = ([], [], .ok imp) := by
  rw [runBatchesGo.eq_def]
  rfl

theorem runBatchesGo_step (db : Nat → Bool) (profileId userId : String) (total : Nat)
    (l : List TransactionData) (bi imp : Nat) (hl : l ≠ []) :
    runBatchesGo db profileId userId total l bi imp =
      if db bi then
        ((l.take 50).map (attachIds profileId userId) ::
          (runBatchesGo db profileId userId total (l.drop 50) (bi + 1)
            (imp + ((l.take 50).map (attachIds profileId userId)).length)).1,
         jsRound (((imp + ((l.take 50).map (attachIds profileId userId)).length : Nat) : ℚ) /
             (total : ℚ) * 100) ::
          (runBatchesGo db profileId userId total (l.drop 50) (bi + 1)
            (imp + ((l.take 50).map (attachIds profileId userId)).length)).2.1,
         (runBatchesGo db profileId userId total (l.drop 50) (bi + 1)
            (imp + ((l.take 50).map (attachIds profileId userId)).length)).2.2)
      else
        ([(l.take 50).map (attachIds profileId userId)], [],
         .error "Erro ao salvar transações. Tente novamente.") := by
  have he : ¬(l.isEmpty = true) := by simpa using hl
  conv_lhs => rw [runBatchesGo.eq_def]
  rw [dif_neg he]

/-- Claim C7: importing 120 valid transactions persists them in exactly
three sequential insert calls of 50, 50 and 20 rows in input order (the
three chunks concatenate back to the input), with progress 42%, 83%, 100%
reported after the successful chunks; if a chunk's insert fails, the loop
halts immediately: the failed call is the last one attempted, previously
committed chunks stay committed, later chunks are never attempted, and the
single batch-insert error is surfaced. -/
theorem import_120_batches (db : Nat → Bool) (profileId userId : String)
    (ts : List TransactionData) (h : ts.length = 120) :
    (ts.take 50 ++ ((ts.drop 50).take 50 ++ (ts.drop 50).drop 50) = ts)
    ∧ (db 0 = true → db 1 = true → db 2 = true →
      runBatches db profileId userId ts =
        ([(ts.take 50).map (attachIds profileId userId),
          ((ts.drop 50).take 50).map (attachIds profileId userId),
          ((ts.drop 50).drop 50).map (attachIds profileId userId)],
         [42, 83, 100], .ok 120))
    ∧ (db 0 = false →
      runBatches db profileId userId ts =
        ([(ts.take 50).map (attachIds profileId userId)], [],
         .error "Erro ao salvar transações. Tente novamente."))
    ∧ (db 0 = true → db 1 = false →
      runBatches db profileId userId ts =
        ([(ts.take 50).map (attachIds profileId userId),
          ((ts.drop 50).take 50).map (attachIds profileId userId)],
         [42], .error "Erro ao salvar transações. Tente novamente."))
    ∧ (db 0 = true → db 1 = true → db 2 = false →
      runBatches db profileId userId ts =
        ([(ts.take 50).map (attachIds profileId userId),
          ((ts.drop 50).take 50).map (attachIds profileId userId),
          ((ts.drop 50).drop 50).map (attachIds profileId userId)],
         [42, 83], .error "Erro ao salvar transações. Tente novamente.")) := by
  have hne0 : ts ≠ [] := by intro e; rw [e] at h; simp at h
  have hlen1 : (ts.drop 50).length = 70 := by rw [List.length_drop, h]
  have hne1 : ts.drop 50 ≠ [] := by intro e; rw [e] at hlen1; simp at hlen1
  have hlen2 : ((ts.drop 50).drop 50).length = 20 := by rw [List.length_drop, hlen1]
  have hne2 : (ts.drop 50).drop 50 ≠ [] := by intro e; rw [e] at hlen2; simp at hlen2
  have hnil3 : ((ts.drop 50).drop 50).drop 50 = [] := by
    apply List.eq_nil_of_length_eq_zero
    rw [List.length_drop, hlen2]
  have lb1 : ((ts.take 50).map (attachIds profileId userId)).length = 50 := by
    rw [List.length_map, List.length_take, h]
    omega
  have lb2 : (((ts.drop 50).take 50).map (attachIds profileId userId)).length = 50 := by
    rw [List.length_map, List.length_take, hlen1]
    omega
  have lb3 : ((((ts.drop 50).drop 50).take 50).map (attachIds profileId userId)).length = 20 := by
    rw [List.length_map, List.length_take, hlen2]
    omega
  have htake3 : ((ts.drop 50).drop 50).take 50 = (ts.drop 50).drop 50 := by
    apply List.take_of_length_le
    rw [hlen2]
    omega
  have e3 : runBatchesGo db profileId userId 120 (((ts.drop 50).drop 50).drop 50) 3 120 =
      ([], [], .ok 120) := by
    rw [hnil3]
    exact runBatchesGo_nil db profileId userId 120 3 120
  refine ⟨?_, ?_, ?_, ?_, ?_⟩
  · rw [List.take_append_drop, List.take_append_drop]
  · intro hdb0 hdb1 hdb2
    have e2 : runBatchesGo db profileId userId 120 ((ts.drop 50).drop 50) 2 100 =
        ([(((ts.drop 50).drop 50).take 50).map (attachIds profileId userId)],
         [100], .ok 120) := by
      rw [runBatchesGo_step db profileId userId 120 ((ts.drop 50).drop 50) 2 100 hne2,
        if_pos hdb2, lb3]
      norm_num [-List.drop_drop, jsRound, e3]
    have e1 : runBatchesGo db profileId userId 120 (ts.drop 50) 1 50 =
        ([((ts.drop 50).take 50).map (attachIds profileId userId),
          (((ts.drop 50).drop 50).take 50).map (attachIds profileId userId)],
         [83, 100], .ok 120) := by
      rw [runBatchesGo_step db profileId userId 120 (ts.drop 50) 1 50 hne1,
        if_pos hdb1, lb2]
      norm_num [-List.drop_drop, jsRound, e2]
    have e0 : runBatchesGo db profileId userId 120 ts 0 0 =
        ([(ts.take 50).map (attachIds profileId userId),
          ((ts.drop 50).take 50).map (attachIds profileId userId),
          (((ts.drop 50).drop 50).take 50).map (attachIds profileId userId)],
         [42, 83, 100], .ok 120) := by
      rw [runBatchesGo_step db profileId userId 120 ts 0 0 hne0, if_pos hdb0, lb1]
      norm_num [-List.drop_drop, jsRound, e1]
    unfold runBatches
    rw [h, e0, htake3]
  · intro hdb0
    unfold runBatches
    rw [h, runBatchesGo_step db profileId userId 120 ts 0 0 hne0,
      if_neg (by simp [hdb0])]
  · intro hdb0 hdb1
    have e1 : runBatchesGo db profileId userId 120 (ts.drop 50) 1 50 =
        ([((ts.drop 50).take 50).map (attachIds profileId userId)], [],
         .error "Erro ao salvar transações. Tente novamente.") := by
      rw [runBatchesGo_step db profileId userId 120 (ts.drop 50) 1 50 hne1,
        if_neg (by simp [hdb1])]
    have e0 : runBatchesGo db profileId userId 120 ts 0 0 =
        ([(ts.take 50).map (attachIds profileId userId),
          ((ts.drop 50).take 50).map (attachIds profileId userId)],
         [42], .error "Erro ao salvar transações. Tente novamente.") := by
      rw [runBatchesGo_step db profileId userId 120 ts 0 0 hne0, if_pos hdb0, lb1]
      norm_num [-List.drop_drop, jsRound, e1]
    unfold runBatches
    rw [h, e0]
  · intro hdb0 hdb1 hdb2
    have e2 : runBatchesGo db profileId userId 120 ((ts.drop 50).drop 50) 2 100 =
        ([(((ts.drop 50).drop 50).take 50).map (attachIds profileId userId)], [],
         .error "Erro ao salvar transações. Tente novamente.") := by
      rw [runBatchesGo_step db profileId userId 120 ((ts.drop 50).drop 50) 2 100 hne2,
        if_neg (by simp [hdb2])]
    have e1 : runBatchesGo db profileId userId 120 (ts.drop 50) 1 50 =
        ([((ts.drop 50).take 50).map (attachIds profileId userId),
          (((ts.drop 50).drop 50).take 50).map (attachIds profileId userId)],
         [83], .error "Erro ao salvar transações. Tente novamente.") := by
      rw [runBatchesGo_step db profileId userId 120 (ts.drop 50) 1 50 hne1,
        if_pos hdb1, lb2]
      norm_num [-List.drop_drop, jsRound, e2]
    have e0 : runBatchesGo db profileId userId 120 ts 0 0 =
        ([(ts.take 50).map (attachIds profileId userId),
          ((ts.drop 50).take 50).map (attachIds profileId userId),
          (((ts.drop 50).drop 50).take 50).map (attachIds profileId userId)],
         [42, 83], .error "Erro ao salvar transações. Tente novamente.") := by
      rw [runBatchesGo_step db profileId userId 120 ts 0 0 hne0, if_pos hdb0, lb1]
      norm_num [-List.drop_drop, jsRound, e1]
    unfold runBatches
    rw [h, e0, htake3]

def t0txn : TransactionData :=
  { description := "a", amount := 1, type := .expense, payment_method := .pix,
    payment_source := none, transaction_date := "2024-01-05", notes := none }

/-- Witness for `import_120_batches`: 120 identical valid transactions,
all inserts succeeding. -/
theorem import_120_batches_witness :
    runBatches (fun _ => true) "p1" "u1" (List.replicate 120 t0txn) =
      ([((List.replicate 120 t0txn).take 50).map (attachIds "p1" "u1"),
        (((List.replicate 120 t0txn).drop 50).take 50).map (attachIds "p1" "u1"),
        (((List.replicate 120 t0txn).drop 50).drop 50).map (attachIds "p1" "u1")],
       [42, 83, 100], .ok 120) :=
  (import_120_batches (fun _ => true) "p1" "u1" (List.replicate 120 t0txn)
    (by simp)).2.1 rfl rfl rfl

/-- A raw row with an out-of-bounds amount or an overlength text field
(the row classes claim C3 counts): the parsed amount is NaN/±Infinity or
outside `[0.01, 999999999.99]`, or the sanitized description exceeds 500
characters, or `payment_source` exceeds 100, or `notes` exceeds 1000. -/
def hasAmountOrLengthViolation (row : TransactionCSV) : Bool :=
  (match parseCurrency row.valor with
   | .num q => decide (q < MIN_AMOUNT) || decide (q > MAX_AMOUNT)
   | _ => true)
  || decide ((descTrimmedOf row).toList.length > 500)
  || (match srcInOf row with
      | some s => decide (s.toList.length > 100)
      | none => false)
  || (match notesInOf row with
      | some s => decide (s.toList.length > 1000)
      | none => false)

theorem mem_ite_nil {α : Type} {c : Prop} [Decidable c] {x e : α}
    (h : e ∈ (if c then [x] else [])) : e = x := by
  split at h
  · simpa using h
  · simp at h

theorem amountIssues_row {n : Nat} {v : JsNum} {e : ValidationError}
    (h : e ∈ amountIssues n v) : e.row = n := by
  cases v with
  | nan => simp [amountIssues] at h; rw [h]
  | inf => simp [amountIssues] at h; rw [h]
  | neginf => simp [amountIssues] at h; rw [h]
  | num q =>
    rcases List.mem_append.mp h with h1 | h1
    · rw [mem_ite_nil h1]
    · rw [mem_ite_nil h1]

theorem rowIssues_row {today : String} {n : Nat} {row : TransactionCSV}
    {e : ValidationError} (h : e ∈ rowIssues today n row) : e.row = n := by
  unfold rowIssues at h
  rcases List.mem_append.mp h with h1 | hNotes
  rcases List.mem_append.mp h1 with h1 | hDate
  rcases List.mem_append.mp h1 with h1 | hSrc
  rcases List.mem_append.mp h1 with h1 | hAmt
  rcases List.mem_append.mp h1 with hMin | hMax
  · rw [mem_ite_nil hMin]
  · rw [mem_ite_nil hMax]
  · exact amountIssues_row hAmt
  · revert hSrc
    cases srcInOf row with
    | none => intro hSrc; simp at hSrc
    | some s =>
      intro hSrc
      rw [mem_ite_nil hSrc]
  · revert hDate
    split
    · intro hDate; simp at hDate
    · intro hDate
      simp only [List.mem_singleton] at hDate
      rw [hDate]
  · revert hNotes
    cases notesInOf row with
    | none => intro hNotes; simp at hNotes
    | some s =>
      intro hNotes
      rw [mem_ite_nil hNotes]

theorem checkRow_fst_row {nowYear : Nat} {today : String} {n : Nat} {row : TransactionCSV}
    {e : ValidationError} (h : e ∈ (checkRow nowYear today n row).1) : e.row = n := by
  unfold checkRow at h
  split at h
  · split at h
    · simp at h; rw [h]
    · simp at h
  · exact rowIssues_row h

theorem checkRow_fst_nil_iff {nowYear : Nat} {today : String} {n : Nat}
    {row : TransactionCSV} :
    (checkRow nowYear today n row).1 = [] ↔ (checkRow nowYear today n row).2.isSome := by
  unfold checkRow
  split
  · split
    · simp
    · simp
  · rename_i hne
    rw [List.isEmpty_iff] at hne
    simp [hne]

theorem validateGo_row_bounds (nowYear : Nat) (today : String) :
    ∀ (rows : List TransactionCSV) (idx : Nat) (e : ValidationError),
      e ∈ (validateGo nowYear today rows idx).1 →
      idx + 1 ≤ e.row ∧ e.row ≤ idx + rows.length := by
  intro rows
  induction rows with
  | nil => intro idx e he; simp [validateGo] at he
  | cons r rest ih =>
    intro idx e he
    simp only [validateGo] at he
    rcases List.mem_append.mp he with h1 | h2
    · have hr := checkRow_fst_row h1
      rw [hr]
      simp only [List.length_cons]
      omega
    · have hb := ih (idx + 1) e h2
      simp only [List.length_cons]
      omega

theorem rowIssues_ne_nil_of_viol {today : String} {n : Nat} {row : TransactionCSV}
    (hv : hasAmountOrLengthViolation row = true) : rowIssues today n row ≠ [] := by
  intro hnil
  unfold rowIssues at hnil
  simp only [List.append_eq_nil] at hnil
  obtain ⟨⟨⟨⟨⟨-, h2⟩, hAmt⟩, hSrc⟩, -⟩, hNotes⟩ := hnil
  unfold hasAmountOrLengthViolation at hv
  simp only [Bool.or_eq_true] at hv
  rcases hv with ((hv | hv) | hv) | hv
  · cases hpc : parseCurrency row.valor with
    | num q =>
      simp only [hpc] at hv hAmt
      simp only [amountIssues, List.append_eq_nil] at hAmt
      obtain ⟨ha, hb⟩ := hAmt
      simp only [Bool.or_eq_true] at hv
      rcases hv with hq | hq
      · rw [if_pos (of_decide_eq_true hq)] at ha
        simp at ha
      · rw [if_pos (of_decide_eq_true hq)] at hb
        simp at hb
    | nan => simp only [hpc] at hAmt; simp [amountIssues] at hAmt
    | inf => simp only [hpc] at hAmt; simp [amountIssues] at hAmt
    | neginf => simp only [hpc] at hAmt; simp [amountIssues] at hAmt
  · rw [if_pos (of_decide_eq_true hv)] at h2
    simp at h2
  · cases hs : srcInOf row with
    | none => simp only [hs] at hv; simp at hv
    | some s =>
      simp only [hs] at hv hSrc
      rw [if_pos (of_decide_eq_true hv)] at hSrc
      simp at hSrc
  · cases hs : notesInOf row with
    | none => simp only [hs] at hv; simp at hv
    | some s =>
      simp only [hs] at hv hNotes
      rw [if_pos (of_decide_eq_true hv)] at hNotes
      simp at hNotes

theorem checkRow_fst_ne_nil_of_viol {nowYear : Nat} {today : String} {n : Nat}
    {row : TransactionCSV} (hv : hasAmountOrLengthViolation row = true) :
    (checkRow nowYear today n row).1 ≠ [] := by
  have hri := @rowIssues_ne_nil_of_viol today n row hv
  unfold checkRow
  split
  · rename_i hempty
    rw [List.isEmpty_iff] at hempty
    exact absurd hempty hri
  · exact hri

theorem validateGo_errcount (nowYear : Nat) (today : String) :
    ∀ (rows : List TransactionCSV) (idx : Nat),
      (rows.filter hasAmountOrLengthViolation).length ≤
        (validateGo nowYear today rows idx).1.length := by
  intro rows
  induction rows with
  | nil => intro idx; simp [validateGo]
  | cons r rest ih =>
    intro idx
    simp only [validateGo, List.length_append, List.filter_cons]
    by_cases hv : hasAmountOrLengthViolation r = true
    · rw [if_pos hv]
      have h1 : 1 ≤ (checkRow nowYear today (idx + 1) r).1.length := by
        have := @checkRow_fst_ne_nil_of_viol nowYear today (idx + 1) r hv
        cases hval : (checkRow nowYear today (idx + 1) r).1 with
        | nil => exact absurd hval this
        | cons a as => simp
      have h2 := ih (idx + 1)
      simp only [List.length_cons]
      omega
    · rw [if_neg hv]
      have h2 := ih (idx + 1)
      omega

set_option maxHeartbeats 1600000 in
theorem validateGo_count (nowYear : Nat) (today : String) :
    ∀ (rows : List TransactionCSV) (idx : Nat),
      (validateGo nowYear today rows idx).2.length
        + ((List.range rows.length).filter
            (fun i => (validateGo nowYear today rows idx).1.any
              (fun e => e.row == idx + i + 1))).length
      = rows.length := by
  intro rows
  induction rows with
  | nil => intro idx; simp [validateGo]
  | cons r rest ih =>
    intro idx
    simp only [validateGo, List.length_cons, List.length_append]
    set E1 := (checkRow nowYear today (idx + 1) r).1 with hE1def
    set E2 := (validateGo nowYear today rest (idx + 1)).1 with hE2def
    set T1 := (checkRow nowYear today (idx + 1) r).2 with hT1def
    set T2 := (validateGo nowYear today rest (idx + 1)).2 with hT2def
    have hE1any : ∀ k, k ≠ idx + 1 → E1.any (fun e => e.row == k) = false := by
      intro k hk
      rw [Bool.eq_false_iff]
      intro hany
      obtain ⟨e, he, hbe⟩ := List.any_eq_true.mp hany
      have := checkRow_fst_row he
      rw [beq_iff_eq] at hbe
      omega
    have hE2any : ∀ k, k ≤ idx + 1 → E2.any (fun e => e.row == k) = false := by
      intro k hk
      rw [Bool.eq_false_iff]
      intro hany
      obtain ⟨e, he, hbe⟩ := List.any_eq_true.mp hany
      have := (validateGo_row_bounds nowYear today rest (idx + 1) e he).1
      rw [beq_iff_eq] at hbe
      omega
    have hcongr : ∀ j ∈ List.range rest.length,
        ((E1 ++ E2).any (fun e => e.row == idx + (Nat.succ j) + 1))
          = (E2.any (fun e => e.row == (idx + 1) + j + 1)) := by
      intro j _
      rw [List.any_append, hE1any (idx + Nat.succ j + 1) (by omega), Bool.false_or]
      congr 1
      funext e
      have harith : idx + Nat.succ j + 1 = idx + 1 + j + 1 := by omega
      rw [harith]
    rw [List.range_succ_eq_map, List.filter_cons]
    by_cases hE1 : E1 = []
    · have hT1some : T1.isSome := checkRow_fst_nil_iff.mp hE1
      obtain ⟨t, ht⟩ := Option.isSome_iff_exists.mp hT1some
      have hp0 : ((E1 ++ E2).any (fun e => e.row == idx + 0 + 1)) = false := by
        rw [hE1, List.nil_append]
        exact hE2any (idx + 0 + 1) (by omega)
      rw [if_neg (by rw [hp0]; simp)]
      rw [List.filter_map, List.length_map]
      simp only [Function.comp_def]
      rw [List.filter_congr hcongr]
      have hIH := ih (idx + 1)
      rw [← hE2def, ← hT2def] at hIH
      rw [ht]
      simp only [Option.toList_some, List.length_singleton]
      omega
    · have hT1none : T1 = none := by
        cases hT1 : T1 with
        | none => rfl
        | some t => exact absurd (checkRow_fst_nil_iff.mpr (by rw [← hT1def, hT1]; rfl)) hE1
      have hp0 : ((E1 ++ E2).any (fun e => e.row == idx + 0 + 1)) = true := by
        rw [List.any_append, Bool.or_eq_true]
        left
        obtain ⟨e, he⟩ := List.exists_mem_of_ne_nil E1 hE1
        exact List.any_eq_true.mpr ⟨e, he, beq_iff_eq.mpr (by
          have := checkRow_fst_row he
          omega)⟩
      rw [if_pos hp0]
      rw [List.length_cons, List.filter_map, List.length_map]
      simp only [Function.comp_def]
      rw [List.filter_congr hcongr]
      have hIH := ih (idx + 1)
      rw [← hE2def, ← hT2def] at hIH
      rw [hT1none]
      simp only [Option.toList_none, List.length_nil]
      omega

/-- Claim C3: the Validator (a) returns `valid` true exactly when the
error list is empty; (b) tags every error with a 1-based row index within
the input range; (c) partitions the input — the number of accepted
transactions plus the number of (distinct) input rows that are the
subject of at least one error equals the number of input rows, so each
row contributes exactly once and validation never stops at the first
error; and (d) reports at least as many errors as there are rows with an
out-of-bounds amount or an overlength text field. -/
theorem validateTransactions_partition (nowYear : Nat) (today : String)
    (rows : List TransactionCSV) :
    (validateTransactions nowYear today rows).valid
      = (validateTransactions nowYear today rows).errors.isEmpty
    ∧ ((validateTransactions nowYear today rows).errors).Forall
        (fun e => 1 ≤ e.row ∧ e.row ≤ rows.length)
    ∧ (validateTransactions nowYear today rows).validTransactions.length
        + ((List.range rows.length).filter
            (fun i => (validateTransactions nowYear today rows).errors.any
              (fun e => e.row == i + 1))).length
      = rows.length
    ∧ (rows.filter hasAmountOrLengthViolation).length
        ≤ (validateTransactions nowYear today rows).errors.length := by
  refine ⟨rfl, ?_, ?_, ?_⟩
  · rw [List.forall_iff_forall_mem]
    intro e he
    have hb := validateGo_row_bounds nowYear today rows 0 e he
    omega
  · have hc := validateGo_count nowYear today rows 0
    simp only [Nat.zero_add] at hc
    exact hc
  · exact validateGo_errcount nowYear today rows 0
